import Mathlib

/-!
Verification of the SSR/CSR demo application against its specification.

The definitions below are a shallow embedding of the TypeScript components:
the contact page's dual form handler (`validateField`, `onCSRSubmit`,
`onSubmit`), the hydration tracker repeated across the page components, the
live-metric simulator of the reports page, and the interval bookkeeping of
the reports and products pages.  Strings are modelled as Lean strings (one
entry per code point), JS numbers used for metric values as rationals, and
timestamps as integers.
-/

namespace SsrDemo

/-- Characters of the JavaScript `\s` class, which is also the set of
characters removed by `String.prototype.trim` (WhiteSpace ∪ LineTerminator). -/
def isJsWhitespace (c : Char) : Bool :=
  c.toNat = 0x09 || c.toNat = 0x0A || c.toNat = 0x0B || c.toNat = 0x0C ||
  c.toNat = 0x0D || c.toNat = 0x20 || c.toNat = 0xA0 || c.toNat = 0x1680 ||
  (0x2000 ≤ c.toNat && c.toNat ≤ 0x200A) ||
  c.toNat = 0x2028 || c.toNat = 0x2029 || c.toNat = 0x202F ||
  c.toNat = 0x205F || c.toNat = 0x3000 || c.toNat = 0xFEFF

/-- JavaScript `value.trim()`: strip leading and trailing whitespace. -/
def jsTrim (l : List Char) : List Char :=
  ((l.dropWhile isJsWhitespace).reverse.dropWhile isJsWhitespace).reverse

/-- A character admitted by the `[^\s@]` character class of the email
regular expression. -/
def goodChar (c : Char) : Bool :=
  !(isJsWhitespace c) && !(c = '@')

/-- `emailRegex.test value` for `emailRegex = /^[^\s@]+@[^\s@]+\.[^\s@]+$/`
(contact component, case 'email').  The whole string must decompose as
`A ++ "@" ++ B ++ "." ++ C` with `A`, `B`, `C` nonempty and every character
of them outside `\s` and distinct from `@`; `i` is the position of the
literal `@` and `j` the position of the literal `.`. -/
def emailRegexTest (s : String) : Bool :=
  let l := s.data
  (List.range l.length).any fun i =>
    (List.range l.length).any fun j =>
      decide (l.get? i = some '@') && decide (l.get? j = some '.') &&
      decide (0 < i) && decide (i + 1 < j) && decide (j + 1 < l.length) &&
      (l.take i).all goodChar &&
      ((l.drop (i + 1)).take (j - (i + 1))).all goodChar &&
      (l.drop (j + 1)).all goodChar

/-- The `ContactForm` interface of the contact component. -/
structure ContactForm where
  name : String
  email : String
  subject : String
  message : String
  newsletter : Bool
deriving DecidableEq, Repr

/-- The initial / reset value of both form-data signals: every string field
empty and the newsletter flag off. -/
def emptyContactForm : ContactForm :=
  { name := "", email := "", subject := "", message := "", newsletter := false }

/-- The `FormErrors` interface: an optional error message per validated
field (a `none` field is an absent key of the JS error object). -/
structure FormErrors where
  name : Option String
  email : Option String
  subject : Option String
  message : Option String
deriving DecidableEq, Repr

/-- The empty error object `{}`. -/
def emptyFormErrors : FormErrors :=
  { name := none, email := none, subject := none, message := none }

/-- `Object.keys(errors).length > 0`: some field of the error object is
present. -/
def FormErrors.hasAny (e : FormErrors) : Bool :=
  e.name.isSome || e.email.isSome || e.subject.isSome || e.message.isSome

/-- The field discriminator of `validateField` (`keyof FormErrors`). -/
inductive Field where
  | name
  | email
  | subject
  | message
deriving DecidableEq, Repr

/-- `ContactComponent.validateField`: re-run one field's rule against
`value` and update the error object (insert on failure, delete on
success).  A direct transcription of the `switch` statement. -/
def validateField (field : Field) (value : String) (errors : FormErrors) :
    FormErrors :=
  match field with
  | .name =>
      if (jsTrim value.data).isEmpty then
        { errors with name := some "Name is required" }
      else if (jsTrim value.data).length < 2 then
        { errors with name := some "Name must be at least 2 characters" }
      else
        { errors with name := none }
  | .email =>
      if (jsTrim value.data).isEmpty then
        { errors with email := some "Email is required" }
      else if !(emailRegexTest value) then
        { errors with email := some "Please enter a valid email address" }
      else
        { errors with email := none }
  | .subject =>
      if value = "" then
        { errors with subject := some "Please select a subject" }
      else
        { errors with subject := none }
  | .message =>
      if (jsTrim value.data).isEmpty then
        { errors with message := some "Message is required" }
      else if (jsTrim value.data).length < 10 then
        { errors with message := some "Message must be at least 10 characters" }
      else
        { errors with message := none }

/-- The name rule of the specification: trimmed length at least 2. -/
def nameValid (v : String) : Bool :=
  decide (2 ≤ (jsTrim v.data).length)

/-- The email rule of the specification: the string matches the email
regular expression. -/
def emailValid (v : String) : Bool :=
  emailRegexTest v

/-- The subject rule: a subject has been selected (`!value` is false). -/
def subjectValid (v : String) : Bool :=
  !(v = "")

/-- The message rule of the specification: trimmed length at least 10. -/
def messageValid (v : String) : Bool :=
  decide (10 ≤ (jsTrim v.data).length)

/-- All four validated fields satisfy their rules. -/
def formValid (f : ContactForm) : Bool :=
  nameValid f.name && emailValid f.email && subjectValid f.subject &&
    messageValid f.message

theorem jsTrim_eq_nil_iff (l : List Char) :
    jsTrim l = [] ↔ ∀ c ∈ l, isJsWhitespace c = true := by
  unfold jsTrim
  rw [List.reverse_eq_nil_iff, List.dropWhile_eq_nil_iff]
  simp only [List.mem_reverse]
  constructor
  · intro h c hc
    rw [← List.takeWhile_append_dropWhile (p := isJsWhitespace) (l := l)] at hc
    rcases List.mem_append.mp hc with hc' | hc'
    · exact List.mem_takeWhile_imp hc'
    · exact h c hc'
  · intro h c hc
    exact h c ((List.dropWhile_sublist isJsWhitespace).mem hc)

theorem emailRegexTest_eq_false_of_trim_nil (v : String)
    (h : jsTrim v.data = []) : emailRegexTest v = false := by
  by_contra hne
  rw [Bool.not_eq_false] at hne
  unfold emailRegexTest at hne
  obtain ⟨i, hi, hin⟩ := List.any_eq_true.mp hne
  obtain ⟨j, hj, hb⟩ := List.any_eq_true.mp hin
  simp only [Bool.and_eq_true, decide_eq_true_eq] at hb
  obtain ⟨⟨⟨⟨⟨⟨⟨_, _⟩, hipos⟩, _⟩, _⟩, htakeA⟩, _⟩, _⟩ := hb
  have hilen : i < v.data.length := List.mem_range.mp hi
  have htake_ne : v.data.take i ≠ [] := by
    rw [Ne, List.take_eq_nil_iff]
    push_neg
    constructor
    · omega
    · intro hnil
      rw [hnil] at hilen
      simp at hilen
  obtain ⟨c, hc⟩ := List.exists_mem_of_ne_nil _ htake_ne
  have hg : goodChar c = true := List.all_eq_true.mp htakeA c hc
  have hcl : c ∈ v.data := (List.take_sublist i v.data).mem hc
  have hws : isJsWhitespace c = true := (jsTrim_eq_nil_iff v.data).mp h c hcl
  rw [goodChar, hws] at hg
  simp at hg

/-- Claim C1: for every input string `v` and prior error object, validating
the name field of the validated (CSR) form leaves an error entry for
`name` iff the trimmed length of `v` is below 2, and leaves the entry
absent otherwise. -/
theorem name_validation_iff_trimmed_length_lt_two (v : String) (e : FormErrors) :
    (validateField Field.name v e).name.isSome = true ↔
      (jsTrim v.data).length < 2 := by
  unfold validateField
  by_cases h1 : (jsTrim v.data).isEmpty = true
  · have hlen : (jsTrim v.data).length = 0 := by
      rw [List.isEmpty_iff] at h1
      simp [h1]
    simp [h1, hlen]
  · by_cases h2 : (jsTrim v.data).length < 2 <;> simp [h1, h2]

/-- Claim C2: for every input string `v` and prior error object, validating
the email field of the validated (CSR) form leaves an error entry for
`email` iff `v` does not match `^[^\s@]+@[^\s@]+\.[^\s@]+$`, and leaves the
entry absent otherwise. -/
theorem email_validation_iff_regex_mismatch (v : String) (e : FormErrors) :
    (validateField Field.email v e).email.isSome = true ↔
      emailRegexTest v = false := by
  unfold validateField
  by_cases h1 : (jsTrim v.data).isEmpty = true
  · have hfalse : emailRegexTest v = false :=
      emailRegexTest_eq_false_of_trim_nil v (List.isEmpty_iff.mp h1)
    simp [h1, hfalse]
  · by_cases h2 : emailRegexTest v = true <;> simp [h1, h2]
  
/-- Claim C3: for every input string `v` and prior error object, validating
the message field of the validated (CSR) form leaves an error entry for
`message` iff the trimmed length of `v` is below 10, and leaves the entry
absent otherwise. -/
theorem message_validation_iff_trimmed_length_lt_ten (v : String) (e : FormErrors) :
    (validateField Field.message v e).message.isSome = true ↔
      (jsTrim v.data).length < 10 := by
  unfold validateField
  by_cases h1 : (jsTrim v.data).isEmpty = true
  · have hlen : (jsTrim v.data).length = 0 := by
      rw [List.isEmpty_iff] at h1
      simp [h1]
    simp [h1, hlen]
  · by_cases h2 : (jsTrim v.data).length < 10 <;> simp [h1, h2]

theorem validateField_name_spec (v : String) (e : FormErrors) :
    (validateField Field.name v e).name.isSome = !(nameValid v) ∧
    (validateField Field.name v e).email = e.email ∧
    (validateField Field.name v e).subject = e.subject ∧
    (validateField Field.name v e).message = e.message := by
  unfold validateField nameValid
  by_cases h1 : (jsTrim v.data).isEmpty = true
  · have hlen : (jsTrim v.data).length = 0 := by
      rw [List.isEmpty_iff] at h1
      simp [h1]
    simp [h1, hlen]
  · by_cases h2 : (jsTrim v.data).length < 2 <;> (simp [h1, h2]; try omega)

theorem validateField_email_spec (v : String) (e : FormErrors) :
    (validateField Field.email v e).email.isSome = !(emailValid v) ∧
    (validateField Field.email v e).name = e.name ∧
    (validateField Field.email v e).subject = e.subject ∧
    (validateField Field.email v e).message = e.message := by
  unfold validateField emailValid
  by_cases h1 : (jsTrim v.data).isEmpty = true
  · have hfalse : emailRegexTest v = false :=
      emailRegexTest_eq_false_of_trim_nil v (List.isEmpty_iff.mp h1)
    simp [h1, hfalse]
  · by_cases h2 : emailRegexTest v = true <;> simp [h1, h2]

theorem validateField_subject_spec (v : String) (e : FormErrors) :
    (validateField Field.subject v e).subject.isSome = !(subjectValid v) ∧
    (validateField Field.subject v e).name = e.name ∧
    (validateField Field.subject v e).email = e.email ∧
    (validateField Field.subject v e).message = e.message := by
  unfold validateField subjectValid
  by_cases h : v = "" <;> simp [h]

theorem validateField_message_spec (v : String) (e : FormErrors) :
    (validateField Field.message v e).message.isSome = !(messageValid v) ∧
    (validateField Field.message v e).name = e.name ∧
    (validateField Field.message v e).email = e.email ∧
    (validateField Field.message v e).subject = e.subject := by
  unfold validateField messageValid
  by_cases h1 : (jsTrim v.data).isEmpty = true
  · have hlen : (jsTrim v.data).length = 0 := by
      rw [List.isEmpty_iff] at h1
      simp [h1]
    simp [h1, hlen]
  · by_cases h2 : (jsTrim v.data).length < 10 <;> (simp [h1, h2]; try omega)

/-- The validated (CSR) slice of the contact component's state:
`csrFormData`, `csrErrors`, `isCSRSubmitting`, `csrSubmitSuccess`. -/
structure CSRState where
  form : ContactForm
  errors : FormErrors
  isSubmitting : Bool
  submitSuccess : Bool
deriving DecidableEq, Repr

/-- The four `validateField` calls at the start of `onCSRSubmit`, in
source order (name, email, subject, message), threading the error
object. -/
def validateAllFields (f : ContactForm) (e : FormErrors) : FormErrors :=
  validateField Field.message f.message
    (validateField Field.subject f.subject
      (validateField Field.email f.email
        (validateField Field.name f.name e)))

/-- `ContactComponent.onCSRSubmit` up to the point where it either returns
early (validation errors present) or schedules the 1500 ms success
callback; the second component is the scheduled delay, if any. -/
def onCSRSubmit (s : CSRState) : CSRState × Option Nat :=
  let errs := validateAllFields s.form s.errors
  if errs.hasAny then
    ({ s with errors := errs }, none)
  else
    ({ s with errors := errs, isSubmitting := true }, some 1500)

/-- The body of the `setTimeout` in `onCSRSubmit`: clear the submitting
flag, record success and run `resetCSRForm` (empty form, empty errors). -/
def csrTimeoutCallback (s : CSRState) : CSRState :=
  { s with
    isSubmitting := false
    submitSuccess := true
    form := emptyContactForm
    errors := emptyFormErrors }

/-- The state of the CSR slice once any callback scheduled by
`onCSRSubmit` has fired. -/
def onCSRSubmitEventually (s : CSRState) : CSRState :=
  match onCSRSubmit s with
  | (s1, some _) => csrTimeoutCallback s1
  | (s1, none) => s1

theorem validateAllFields_isSome (f : ContactForm) (e : FormErrors) :
    (validateAllFields f e).name.isSome = !(nameValid f.name) ∧
    (validateAllFields f e).email.isSome = !(emailValid f.email) ∧
    (validateAllFields f e).subject.isSome = !(subjectValid f.subject) ∧
    (validateAllFields f e).message.isSome = !(messageValid f.message) := by
  unfold validateAllFields
  obtain ⟨a1, a2, a3, a4⟩ := validateField_name_spec f.name e
  obtain ⟨b1, b2, b3, b4⟩ :=
    validateField_email_spec f.email (validateField Field.name f.name e)
  obtain ⟨c1, c2, c3, c4⟩ := validateField_subject_spec f.subject
    (validateField Field.email f.email (validateField Field.name f.name e))
  obtain ⟨d1, d2, d3, d4⟩ := validateField_message_spec f.message
    (validateField Field.subject f.subject
      (validateField Field.email f.email (validateField Field.name f.name e)))
  refine ⟨?_, ?_, ?_, ?_⟩
  · rw [d2, c2, b2, a1]
  · rw [d3, c3, b1]
  · rw [d4, c1]
  · rw [d1]

theorem validateAllFields_hasAny_eq (f : ContactForm) (e : FormErrors) :
    (validateAllFields f e).hasAny = !(formValid f) := by
  obtain ⟨h1, h2, h3, h4⟩ := validateAllFields_isSome f e
  unfold FormErrors.hasAny formValid
  rw [h1, h2, h3, h4]
  cases nameValid f.name <;> cases emailValid f.email <;>
    cases subjectValid f.subject <;> cases messageValid f.message <;> rfl

/-- Claim C4: if some validated field violates its rule and
`csrSubmitSuccess` is false, then submitting the validated (CSR) form
aborts after re-validating: `csrSubmitSuccess` stays false and the whole
form-data record is untouched. -/
theorem invalid_submit_preserves_state (s : CSRState)
    (hinv : formValid s.form = false) (hss : s.submitSuccess = false) :
    (onCSRSubmitEventually s).submitSuccess = false ∧
    (onCSRSubmitEventually s).form = s.form := by
  have h := validateAllFields_hasAny_eq s.form s.errors
  rw [hinv] at h
  unfold onCSRSubmitEventually onCSRSubmit
  simp [h, hss]

/-- The second example input of the specification: every validated field
invalid. -/
def sampleInvalidState : CSRState :=
  { form := { name := "J", email := "bad", subject := "", message := "short",
              newsletter := false },
    errors := emptyFormErrors, isSubmitting := false, submitSuccess := false }

/-- Witness for claim C4 at the specification's own counter-sample input. -/
theorem invalid_submit_preserves_state_witness :
    formValid sampleInvalidState.form = false ∧
    sampleInvalidState.submitSuccess = false ∧
    ((onCSRSubmitEventually sampleInvalidState).submitSuccess = false ∧
      (onCSRSubmitEventually sampleInvalidState).form = sampleInvalidState.form) :=
  ⟨by decide, rfl, invalid_submit_preserves_state sampleInvalidState (by decide) rfl⟩

/-- Claim C5: if every validated field satisfies its rule, submitting the
validated (CSR) form schedules the fixed 1500 ms callback and, once it
fires, `csrSubmitSuccess` is true, the form-data record is reset to its
initial state and the error object is empty. -/
theorem valid_submit_eventually_succeeds_and_resets (s : CSRState)
    (h : formValid s.form = true) :
    (onCSRSubmit s).2 = some 1500 ∧
    (onCSRSubmitEventually s).submitSuccess = true ∧
    (onCSRSubmitEventually s).form = emptyContactForm ∧
    (onCSRSubmitEventually s).errors = emptyFormErrors := by
  have hh := validateAllFields_hasAny_eq s.form s.errors
  rw [h] at hh
  unfold onCSRSubmitEventually onCSRSubmit
  simp [hh, csrTimeoutCallback]

/-- The first example input of the specification: every validated field
valid. -/
def sampleValidState : CSRState :=
  { form := { name := "Jo", email := "a@b.co", subject := "General",
              message := "Hello there!", newsletter := false },
    errors := emptyFormErrors, isSubmitting := false, submitSuccess := false }

/-- Witness for claim C5 at the specification's own sample input. -/
theorem valid_submit_eventually_succeeds_and_resets_witness :
    formValid sampleValidState.form = true ∧
    ((onCSRSubmit sampleValidState).2 = some 1500 ∧
      (onCSRSubmitEventually sampleValidState).submitSuccess = true ∧
      (onCSRSubmitEventually sampleValidState).form = emptyContactForm ∧
      (onCSRSubmitEventually sampleValidState).errors = emptyFormErrors) :=
  ⟨by decide, valid_submit_eventually_succeeds_and_resets sampleValidState (by decide)⟩

/-- The basic (SSR) slice of the contact component's state: `formData`,
`isSubmitting`, `submitSuccess`.  It has no error object. -/
structure SSRState where
  form : ContactForm
  isSubmitting : Bool
  submitSuccess : Bool
deriving DecidableEq, Repr

/-- `ContactComponent.onSubmit`: on the server, record success at once;
in the browser, raise the submitting flag and schedule the 2000 ms
callback.  The second component is the scheduled delay, if any. -/
def onSubmit (isServer : Bool) (s : SSRState) : SSRState × Option Nat :=
  if isServer then
    ({ s with submitSuccess := true }, none)
  else
    ({ s with isSubmitting := true }, some 2000)

/-- The body of the `setTimeout` in `onSubmit`: clear the submitting flag,
record success and run `resetSSRForm` (which clears only the form data). -/
def ssrTimeoutCallback (s : SSRState) : SSRState :=
  { s with
    isSubmitting := false
    submitSuccess := true
    form := emptyContactForm }

/-- The state of the basic slice once any callback scheduled by `onSubmit`
has fired. -/
def onSubmitEventually (isServer : Bool) (s : SSRState) : SSRState :=
  match onSubmit isServer s with
  | (s1, some _) => ssrTimeoutCallback s1
  | (s1, none) => s1

/-- Claim C9: the basic (SSR) form's submission consults no validation and
is never rejected.  Regardless of field contents, in the browser
environment `onSubmit` raises `isSubmitting`, schedules the fixed 2000 ms
callback, and once it fires `submitSuccess` is true and the form is reset;
and in either environment submission ends with `submitSuccess` true. -/
theorem basic_submit_never_rejected (s : SSRState) :
    (onSubmit false s).1.isSubmitting = true ∧
    (onSubmit false s).2 = some 2000 ∧
    (onSubmitEventually false s).submitSuccess = true ∧
    (onSubmitEventually false s).form = emptyContactForm ∧
    ∀ isServer : Bool, (onSubmitEventually isServer s).submitSuccess = true := by
  refine ⟨rfl, rfl, rfl, rfl, ?_⟩
  intro isServer
  cases isServer <;> rfl

/-- The hydration phase of the `hydrationPhase` signal. -/
inductive Phase where
  | server
  | loading
  | hydrated
deriving DecidableEq, Repr

/-- Position of a phase along the `server → loading → hydrated`
progression. -/
def Phase.rank : Phase → Nat
  | .server => 0
  | .loading => 1
  | .hydrated => 2

/-- The hydration-tracking slice shared by the home, products, reports and
ssr-demo components: `isHydrated`, `hydrationTime`, `hydrationDuration`,
`hydrationPhase`. -/
structure HydrationState where
  isHydrated : Bool
  hydrationTime : Option Int
  hydrationDuration : Option Int
  phase : Phase
deriving DecidableEq, Repr

/-- The signal initialisers: not hydrated, no timestamps, phase
`'server'`. -/
def initHydrationState : HydrationState :=
  { isHydrated := false, hydrationTime := none, hydrationDuration := none,
    phase := Phase.server }

/-- The `ngOnInit` branch that sets the initial phase from the
environment probe (`typeof window === 'undefined'`). -/
def hydrationNgOnInit (windowUndefined : Bool) (s : HydrationState) :
    HydrationState :=
  if windowUndefined then
    { s with phase := Phase.server }
  else
    { s with phase := Phase.loading }

/-- `ngAfterViewInit`: in the browser, schedule `markAsHydrated` after a
fixed 100 ms delay; on the server, schedule nothing.  The result is the
scheduled delay, if any. -/
def hydrationNgAfterViewInit (windowUndefined : Bool) : Option Nat :=
  if windowUndefined then none else some 100

/-- `markAsHydrated`, given the component-creation timestamp and the
current time `now`. -/
def markAsHydrated (componentCreated now : Int) (s : HydrationState) :
    HydrationState :=
  { s with
    isHydrated := true
    hydrationTime := some now
    hydrationDuration := some (now - componentCreated)
    phase := Phase.hydrated }

/-- The successive values taken by the `hydrationPhase` signal over a
component's lifetime: initialiser, `ngOnInit`, and — only when
`ngAfterViewInit` scheduled it — the delayed `markAsHydrated` callback. -/
def hydrationPhaseTrace (windowUndefined : Bool) (componentCreated now : Int) :
    List Phase :=
  let s0 := initHydrationState
  let s1 := hydrationNgOnInit windowUndefined s0
  match hydrationNgAfterViewInit windowUndefined with
  | none => [s0.phase, s1.phase]
  | some _ => [s0.phase, s1.phase, (markAsHydrated componentCreated now s1).phase]

/-- Claim C6: in either environment, across every write to the
`hydrationPhase` signal the phase only ever advances along
`server → loading → hydrated` and never regresses. -/
theorem hydration_phase_monotone (windowUndefined : Bool)
    (componentCreated now : Int) :
    List.Chain' (fun a b => Phase.rank a ≤ Phase.rank b)
      (hydrationPhaseTrace windowUndefined componentCreated now) := by
  cases windowUndefined <;>
    simp [hydrationPhaseTrace, hydrationNgAfterViewInit, hydrationNgOnInit,
      initHydrationState, markAsHydrated, Phase.rank]

/-- Claim C7: on the server no hydration callback is scheduled and the
phase stays `'server'` for the whole lifecycle; in the browser a 100 ms
callback is scheduled after view attachment, and when it runs it sets
`isHydrated`, records `hydrationTime = now`,
`hydrationDuration = now - componentCreated` and phase `'hydrated'`. -/
theorem hydration_callback_behaviour (componentCreated now : Int)
    (s : HydrationState) :
    hydrationNgAfterViewInit true = none ∧
    hydrationPhaseTrace true componentCreated now =
      [Phase.server, Phase.server] ∧
    hydrationNgAfterViewInit false = some 100 ∧
    (markAsHydrated componentCreated now s).isHydrated = true ∧
    (markAsHydrated componentCreated now s).hydrationTime = some now ∧
    (markAsHydrated componentCreated now s).hydrationDuration =
      some (now - componentCreated) ∧
    (markAsHydrated componentCreated now s).phase = Phase.hydrated := by
  refine ⟨rfl, ?_, rfl, rfl, rfl, rfl, rfl⟩
  simp [hydrationPhaseTrace, hydrationNgAfterViewInit, hydrationNgOnInit,
    initHydrationState]

/-- The trend classification of a live metric. -/
inductive Trend where
  | up
  | down
  | stable
deriving DecidableEq, Repr

/-- One entry of the reports component's `liveMetrics` signal.  JS numbers
are modelled as rationals. -/
structure LiveMetric where
  name : String
  value : ℚ
  trend : Trend
deriving DecidableEq, Repr

/-- JavaScript `Math.round`: round half towards positive infinity. -/
def jsRound (x : ℚ) : Int :=
  Int.floor (x + 1 / 2)

/-- The clamp operation named by the specification. -/
def clamp (lo hi x : ℚ) : ℚ :=
  max lo (min hi x)

/-- The per-metric body of `ReportsComponent.updateLiveMetrics`, with the
draw `change = (Math.random() - 0.5) * 10` taken as a parameter. -/
def updateLiveMetric (change : ℚ) (m : LiveMetric) : LiveMetric :=
  let newValue := max 0 (min 100 (m.value + change))
  let trend :=
    if change > 2 then Trend.up
    else if change < -2 then Trend.down
    else Trend.stable
  { m with value := (jsRound (newValue * 10) : ℚ) / 10, trend := trend }

/-- One tick of the 500 ms live-metric timer: every metric is updated with
its own random draw. -/
def updateLiveMetrics (changes : List ℚ) (ms : List LiveMetric) :
    List LiveMetric :=
  List.zipWith updateLiveMetric changes ms

theorem jsRound_div_ten_bounds (y : ℚ) (h0 : 0 ≤ y) (h1 : y ≤ 100) :
    0 ≤ (jsRound (y * 10) : ℚ) / 10 ∧ (jsRound (y * 10) : ℚ) / 10 ≤ 100 := by
  unfold jsRound
  constructor
  · apply div_nonneg _ (by norm_num)
    have h : (0 : ℤ) ≤ Int.floor (y * 10 + 1 / 2) :=
      Int.floor_nonneg.mpr (by linarith)
    exact_mod_cast h
  · rw [div_le_iff₀ (by norm_num)]
    have h2 : Int.floor (y * 10 + 1 / 2) < 1001 :=
      Int.floor_lt.mpr (by push_cast; linarith)
    have h3 : Int.floor (y * 10 + 1 / 2) ≤ 1000 := by omega
    calc (Int.floor (y * 10 + 1 / 2) : ℚ) ≤ 1000 := by exact_mod_cast h3
    _ = 100 * 10 := by norm_num

theorem updateLiveMetric_value_bounds (change : ℚ) (m : LiveMetric) :
    0 ≤ (updateLiveMetric change m).value ∧
      (updateLiveMetric change m).value ≤ 100 := by
  unfold updateLiveMetric
  exact jsRound_div_ten_bounds (max 0 (min 100 (m.value + change)))
    (le_max_left 0 _)
    (max_le (by norm_num) (min_le_left 100 _))

theorem updateLiveMetrics_all_bounds : ∀ (changes : List ℚ) (ms : List LiveMetric),
    (updateLiveMetrics changes ms).all
      (fun x => decide (0 ≤ x.value) && decide (x.value ≤ 100)) = true := by
  intro changes
  induction changes with
  | nil => intro ms; rfl
  | cons c cs ih =>
    intro ms
    cases ms with
    | nil => rfl
    | cons m mrest =>
      simp only [updateLiveMetrics, List.zipWith_cons_cons, List.all_cons]
      rw [Bool.and_eq_true]
      constructor
      · obtain ⟨hb1, hb2⟩ := updateLiveMetric_value_bounds c m
        simp [hb1, hb2]
      · exact ih mrest

/-- Claim C8: on a live-metric tick each metric is recomputed as the
one-decimal rounding of `clamp(value + change, 0, 100)`, its trend is
reclassified purely by thresholding the draw (`up` iff `change > 2`,
`down` iff `change < -2`, `stable` otherwise), and every updated value —
also across a whole tick of the metric list — lies within the clamp
bounds. -/
theorem live_metric_update_spec (change : ℚ) (m : LiveMetric)
    (changes : List ℚ) (ms : List LiveMetric) :
    (updateLiveMetric change m).value =
      (jsRound (clamp 0 100 (m.value + change) * 10) : ℚ) / 10 ∧
    (0 ≤ (updateLiveMetric change m).value ∧
      (updateLiveMetric change m).value ≤ 100) ∧
    ((updateLiveMetric change m).trend = Trend.up ↔ 2 < change) ∧
    ((updateLiveMetric change m).trend = Trend.down ↔ change < -2) ∧
    ((updateLiveMetric change m).trend = Trend.stable ↔
      ¬ 2 < change ∧ ¬ change < -2) ∧
    (updateLiveMetrics changes ms).all
      (fun x => decide (0 ≤ x.value) && decide (x.value ≤ 100)) = true := by
  refine ⟨rfl, updateLiveMetric_value_bounds change m, ?_, ?_, ?_, ?_⟩
  · unfold updateLiveMetric
    by_cases h1 : change > 2
    · simp [h1]
    · by_cases h2 : change < -2 <;> simp [h1, h2]
  · unfold updateLiveMetric
    by_cases h1 : change > 2
    · simp [h1]
      linarith
    · by_cases h2 : change < -2 <;> simp [h1, h2]
  · unfold updateLiveMetric
    by_cases h1 : change > 2
    · simp [h1]
    · by_cases h2 : change < -2 <;> simp [h1, h2]
  · exact updateLiveMetrics_all_bounds changes ms

/-- The host's interval table: a fresh-id counter and the list of active
intervals as `(id, period in ms)` pairs. -/
structure TimerSys where
  nextId : Nat
  active : List (Nat × Nat)
deriving DecidableEq, Repr

/-- The interval table before a component starts. -/
def TimerSys.empty : TimerSys :=
  { nextId := 0, active := [] }

/-- `window.setInterval(cb, periodMs)`: registers an interval and returns
its id. -/
def setIntervalSys (periodMs : Nat) (t : TimerSys) : Nat × TimerSys :=
  (t.nextId,
    { nextId := t.nextId + 1, active := t.active ++ [(t.nextId, periodMs)] })

/-- `clearInterval(i)`: deactivates the interval with id `i`. -/
def clearIntervalSys (i : Nat) (t : TimerSys) : TimerSys :=
  { t with active := t.active.filter (fun p => p.1 != i) }

/-- The interval-id fields of the reports component. -/
structure ReportsIntervalIds where
  intervalId : Option Nat
  realTimeIntervalId : Option Nat
deriving DecidableEq, Repr

/-- The interval registrations of `ReportsComponent.ngOnInit`: in the
browser it starts the 2000 ms dashboard interval and the 500 ms live-metric
interval, storing their ids, and a 10000 ms connection-status interval
whose id is discarded; on the server it starts nothing. -/
def reportsNgOnInitTimers (windowUndefined : Bool) (t : TimerSys) :
    ReportsIntervalIds × TimerSys :=
  if windowUndefined then
    ({ intervalId := none, realTimeIntervalId := none }, t)
  else
    let r1 := setIntervalSys 2000 t
    let r2 := setIntervalSys 500 r1.2
    let r3 := setIntervalSys 10000 r2.2
    ({ intervalId := some r1.1, realTimeIntervalId := some r2.1 }, r3.2)

/-- `ReportsComponent.ngOnDestroy`: clear the two stored interval ids, when
present. -/
def reportsNgOnDestroy (ids : ReportsIntervalIds) (t : TimerSys) : TimerSys :=
  let t1 := match ids.intervalId with
    | some i => clearIntervalSys i t
    | none => t
  match ids.realTimeIntervalId with
  | some i => clearIntervalSys i t1
  | none => t1

/-- The interval-id fields of the products component. -/
structure ProductsIntervalIds where
  intervalId : Option Nat
  liveDataIntervalId : Option Nat
deriving DecidableEq, Repr

/-- `ProductsComponent.startRealTimeUpdates`: the 1000 ms render-time
interval and the 3000 ms live-data interval, ids stored, plus a 15000 ms
connection-status interval whose id is discarded. -/
def productsStartRealTimeUpdates (t : TimerSys) : ProductsIntervalIds × TimerSys :=
  let r1 := setIntervalSys 1000 t
  let r2 := setIntervalSys 3000 r1.2
  let r3 := setIntervalSys 15000 r2.2
  ({ intervalId := some r1.1, liveDataIntervalId := some r2.1 }, r3.2)

/-- `ProductsComponent.simulateUserActivity`: a 10000 ms interval whose id
is discarded. -/
def productsSimulateUserActivity (t : TimerSys) : TimerSys :=
  (setIntervalSys 10000 t).2

/-- The interval registrations of `ProductsComponent.ngOnInit` (browser
branch runs `startRealTimeUpdates` then `simulateUserActivity`). -/
def productsNgOnInitTimers (windowUndefined : Bool) (t : TimerSys) :
    ProductsIntervalIds × TimerSys :=
  if windowUndefined then
    ({ intervalId := none, liveDataIntervalId := none }, t)
  else
    let r := productsStartRealTimeUpdates t
    (r.1, productsSimulateUserActivity r.2)

/-- `ProductsComponent.ngOnDestroy`: clear the two stored interval ids,
when present. -/
def productsNgOnDestroy (ids : ProductsIntervalIds) (t : TimerSys) : TimerSys :=
  let t1 := match ids.intervalId with
    | some i => clearIntervalSys i t
    | none => t
  match ids.liveDataIntervalId with
  | some i => clearIntervalSys i t1
  | none => t1

/-- Claim C10 fails on the code: running the reports component's browser
lifecycle (`ngOnInit` then `ngOnDestroy`) leaves its anonymous 10000 ms
connection-status interval active, and the products component's lifecycle
leaves its anonymous 15000 ms connection-status and 10000 ms user-activity
intervals active — the destruction hooks cancel only the intervals whose
ids were stored. -/
theorem destroyed_components_leak_intervals :
    (reportsNgOnDestroy (reportsNgOnInitTimers false TimerSys.empty).1
        (reportsNgOnInitTimers false TimerSys.empty).2).active =
      [(2, 10000)] ∧
    (productsNgOnDestroy (productsNgOnInitTimers false TimerSys.empty).1
        (productsNgOnInitTimers false TimerSys.empty).2).active =
      [(2, 15000), (3, 10000)] := by
  constructor <;> rfl

end SsrDemo
